import Mathlib

/-!
Verification of `src/solve_EDPRmodel.py` (electrodiffusive Pinsky-Rinzel model driver,
ModelDB 267139).

The repository's sources contain the wrapper `solve_EDPRmodel` together with its inner
rate assembler `dkdt`.  The `EDPRmodel` class and the function `somatic_injection_current`
are imported by the source from packages that are not part of this repository, so the
class's methods (`dkdt`, `dmdt`, `membrane_potentials`, `reversal_potentials`) and its
volume attributes are kept abstract here, gathered in an `EDPRlib` record of functions,
while `somatic_injection_current` and `total_charge` are modelled from the spec (their
doc comments say so).  Python floats are modelled as exact rationals; the 26-component
state and rate vectors of the integrator interface are functions `Fin 26 → ℚ`.
-/

namespace EDPR

/-- The 26-component state / rate vector exchanged with the external integrator,
ordered Na(si,se,di,de), K(si,se,di,de), Cl(si,se,di,de), Ca(si,se,di,de),
X(si,se,di,de), then the gates n, h, s, c, q, z. -/
abbrev Vec26 := Fin 26 → ℚ

/-- Snapshot object built by the Python constructor call
`EDPRmodel(T, Na_si, ..., X_de, alpha, Ca_si0, Ca_di0, n, h, s, c, q, z)`:
it records exactly the constructor arguments, in the source's order. -/
structure EDPRmodel where
  T : ℚ
  Na_si : ℚ
  Na_se : ℚ
  Na_di : ℚ
  Na_de : ℚ
  K_si : ℚ
  K_se : ℚ
  K_di : ℚ
  K_de : ℚ
  Cl_si : ℚ
  Cl_se : ℚ
  Cl_di : ℚ
  Cl_de : ℚ
  Ca_si : ℚ
  Ca_se : ℚ
  Ca_di : ℚ
  Ca_de : ℚ
  X_si : ℚ
  X_se : ℚ
  X_di : ℚ
  X_de : ℚ
  alpha : ℚ
  Ca_si0 : ℚ
  Ca_di0 : ℚ
  n : ℚ
  h : ℚ
  s : ℚ
  c : ℚ
  q : ℚ
  z : ℚ

/-- The 20 concentration rates returned by the external method `my_cell.dkdt()`,
in the source's unpacking order. -/
structure CellRates where
  dNadt_si : ℚ
  dNadt_se : ℚ
  dNadt_di : ℚ
  dNadt_de : ℚ
  dKdt_si : ℚ
  dKdt_se : ℚ
  dKdt_di : ℚ
  dKdt_de : ℚ
  dCldt_si : ℚ
  dCldt_se : ℚ
  dCldt_di : ℚ
  dCldt_de : ℚ
  dCadt_si : ℚ
  dCadt_se : ℚ
  dCadt_di : ℚ
  dCadt_de : ℚ
  dresdt_si : ℚ
  dresdt_se : ℚ
  dresdt_di : ℚ
  dresdt_de : ℚ

/-- The 6 gating rates returned by the external method `my_cell.dmdt()`. -/
structure GateRates where
  dndt : ℚ
  dhdt : ℚ
  dsdt : ℚ
  dcdt : ℚ
  dqdt : ℚ
  dzdt : ℚ

/-- The externally imported `EDPRmodel` package functionality that the wrapper calls:
the two rate methods, the two diagnostic methods evaluated on the initial cell, the
compartment-volume attributes, and the Faraday constant attribute.  All are abstract
here because their code is not part of this repository's sources. -/
structure EDPRlib where
  cell_dkdt : EDPRmodel → CellRates
  cell_dmdt : EDPRmodel → GateRates
  membrane_potentials : EDPRmodel → ℚ × ℚ × ℚ × ℚ × ℚ × ℚ
  reversal_potentials : EDPRmodel → ℚ × ℚ × ℚ × ℚ × ℚ × ℚ × ℚ × ℚ
  V_si : EDPRmodel → ℚ
  V_se : EDPRmodel → ℚ
  V_di : EDPRmodel → ℚ
  V_de : EDPRmodel → ℚ
  F : ℚ

/-- Temperature `T = 309.14` K, line 23 of the source. -/
def T : ℚ := 30914 / 100

/-- Initial condition `Na_si0 = 18.` (line 26). -/
def Na_si0 : ℚ := 18

/-- Initial condition `Na_se0 = 140.` (line 27). -/
def Na_se0 : ℚ := 140

/-- Initial condition `K_si0 = 99.` (line 28). -/
def K_si0 : ℚ := 99

/-- Initial condition `K_se0 = 4.3` (line 29). -/
def K_se0 : ℚ := 43 / 10

/-- Initial condition `Cl_si0 = 7.` (line 30). -/
def Cl_si0 : ℚ := 7

/-- Initial condition `Cl_se0 = 134.` (line 31). -/
def Cl_se0 : ℚ := 134

/-- Initial condition `Ca_si0 = 0.01` (line 32). -/
def Ca_si0 : ℚ := 1 / 100

/-- Initial condition `Ca_se0 = 1.1` (line 33). -/
def Ca_se0 : ℚ := 11 / 10

/-- Initial condition `Na_di0 = 18.` (line 35). -/
def Na_di0 : ℚ := 18

/-- Initial condition `Na_de0 = 140.` (line 36). -/
def Na_de0 : ℚ := 140

/-- Initial condition `K_di0 = 99.` (line 37). -/
def K_di0 : ℚ := 99

/-- Initial condition `K_de0 = 4.3` (line 38). -/
def K_de0 : ℚ := 43 / 10

/-- Initial condition `Cl_di0 = 7.` (line 39). -/
def Cl_di0 : ℚ := 7

/-- Initial condition `Cl_de0 = 134.` (line 40). -/
def Cl_de0 : ℚ := 134

/-- Initial condition `Ca_di0 = 0.01` (line 41). -/
def Ca_di0 : ℚ := 1 / 100

/-- Initial condition `Ca_de0 = 1.1` (line 42). -/
def Ca_de0 : ℚ := 11 / 10

/-- Intracellular resting residual
`res_i = -68e-3*3e-2*616e-12/(1437e-18*9.648e4)` (line 44). -/
def res_i : ℚ := -68 / 1000 * (3 / 100) * (616 / 10 ^ 12) / (1437 / 10 ^ 18 * 96480)

/-- Extracellular resting residual
`res_e = -68e-3*3e-2*616e-12/(718.5e-18*9.648e4)` (line 45). -/
def res_e : ℚ := -68 / 1000 * (3 / 100) * (616 / 10 ^ 12) / (7185 / 10 ^ 19 * 96480)

/-- `X_si0 = Na_si0 + K_si0 - Cl_si0 + 2*Ca_si0 - res_i` (line 47). -/
def X_si0 : ℚ := Na_si0 + K_si0 - Cl_si0 + 2 * Ca_si0 - res_i

/-- `X_se0 = Na_se0 + K_se0 - Cl_se0 + 2*Ca_se0 + res_e` (line 48). -/
def X_se0 : ℚ := Na_se0 + K_se0 - Cl_se0 + 2 * Ca_se0 + res_e

/-- `X_di0 = Na_di0 + K_di0 - Cl_di0 + 2*Ca_di0 - res_i` (line 49). -/
def X_di0 : ℚ := Na_di0 + K_di0 - Cl_di0 + 2 * Ca_di0 - res_i

/-- `X_de0 = Na_de0 + K_de0 - Cl_de0 + 2*Ca_de0 + res_e` (line 50). -/
def X_de0 : ℚ := Na_de0 + K_de0 - Cl_de0 + 2 * Ca_de0 + res_e

/-- Initial gate value `n0 = 0.0003` (line 52). -/
def n0 : ℚ := 3 / 10000

/-- Initial gate value `h0 = 0.999` (line 53). -/
def h0 : ℚ := 999 / 1000

/-- Initial gate value `s0 = 0.007` (line 54). -/
def s0 : ℚ := 7 / 1000

/-- Initial gate value `c0 = 0.006` (line 55). -/
def c0 : ℚ := 6 / 1000

/-- Initial gate value `q0 = 0.011` (line 56). -/
def q0 : ℚ := 11 / 1000

/-- Initial gate value `z0 = 1.0` (line 57). -/
def z0 : ℚ := 1

/-- The snapshot constructed on every rate evaluation (line 64): the state vector `k`
is unpacked positionally into the 20 concentrations and 6 gates, and the fixed outer
values `T`, `alpha`, `Ca_si0` and `Ca_di0` are passed alongside. -/
def mkCell (alpha : ℚ) (k : Vec26) : EDPRmodel :=
  { T := T
    Na_si := k 0, Na_se := k 1, Na_di := k 2, Na_de := k 3
    K_si := k 4, K_se := k 5, K_di := k 6, K_de := k 7
    Cl_si := k 8, Cl_se := k 9, Cl_di := k 10, Cl_de := k 11
    Ca_si := k 12, Ca_se := k 13, Ca_di := k 14, Ca_de := k 15
    X_si := k 16, X_se := k 17, X_di := k 18, X_de := k 19
    alpha := alpha, Ca_si0 := Ca_si0, Ca_di0 := Ca_di0
    n := k 20, h := k 21, s := k 22, c := k 23, q := k 24, z := k 25 }

/-- Modelled from the spec: the StimulusInjector `somatic_injection_current` is imported
by the source from outside this repository.  Per the spec (sections 4.3 step 6 and 4.4)
it is a pure function that converts the weighted injected current into a concentration
rate through a compartment volume and the Faraday constant, adds it to the first
potassium rate it receives and subtracts the correspondingly scaled amount from the
paired compartment's rate.  The volumes and Faraday constant it reads from the model
object are passed here as the first three arguments. -/
def somatic_injection_current (V1 V2 F dK1 dK2 weight I_stim : ℚ) : ℚ × ℚ :=
  (dK1 + weight * I_stim / (V1 * F), dK2 - weight * I_stim / (V2 * F))

/-- Modelled from the spec: `total_charge(k, V)` is a method of the external `EDPRmodel`
class.  Per the spec (section 4.1) it is the weighted sum of the five species
concentrations with signed valences times volume times the Faraday constant; the
valences are Na +1, K +1, Cl −1, Ca +2 and X −1 (the impermeant species is the
charge-balancing anion, the only assignment consistent with the initialization
formulas of lines 47-50 and electroneutrality at rest). -/
def total_charge (F : ℚ) (k : List ℚ) (V : ℚ) : ℚ :=
  F * (List.zipWith (fun zk ck => zk * ck) [1, 1, -1, 2, -1] k).sum * V

/-- Packs the 20 concentration rates, the (possibly injected) somatic potassium pair
and the 6 gate rates into the 26-component return tuple of `dkdt`, in the source's
order (lines 73-75).  The final catch-all branch is unreachable: every index of
`Fin 26` has value below 26. -/
def assemble (r : CellRates) (kpair : ℚ × ℚ) (g : GateRates) : Vec26 := fun i =>
  match i.val with
  | 0 => r.dNadt_si
  | 1 => r.dNadt_se
  | 2 => r.dNadt_di
  | 3 => r.dNadt_de
  | 4 => kpair.1
  | 5 => kpair.2
  | 6 => r.dKdt_di
  | 7 => r.dKdt_de
  | 8 => r.dCldt_si
  | 9 => r.dCldt_se
  | 10 => r.dCldt_di
  | 11 => r.dCldt_de
  | 12 => r.dCadt_si
  | 13 => r.dCadt_se
  | 14 => r.dCadt_di
  | 15 => r.dCadt_de
  | 16 => r.dresdt_si
  | 17 => r.dresdt_se
  | 18 => r.dresdt_di
  | 19 => r.dresdt_de
  | 20 => g.dndt
  | 21 => g.dhdt
  | 22 => g.dsdt
  | 23 => g.dcdt
  | 24 => g.dqdt
  | 25 => g.dzdt
  | _ => 0

/-- The rate assembler `dkdt(t, k)` of lines 60-75: unpack `k`, build the snapshot,
obtain the 20 concentration rates and 6 gate rates from the external model, apply the
somatic injection to `(dKdt_si, dKdt_se)` when `t > stim_start and t < stim_end`, and
return the 26 rates in the source's order. -/
def dkdt (lib : EDPRlib) (alpha I_stim stim_start stim_end : ℚ) (t : ℚ) (k : Vec26) :
    Vec26 :=
  let my_cell := mkCell alpha k
  let r := lib.cell_dkdt my_cell
  let g := lib.cell_dmdt my_cell
  let kpair : ℚ × ℚ :=
    if stim_start < t ∧ t < stim_end then
      somatic_injection_current (lib.V_si my_cell) (lib.V_se my_cell) lib.F
        r.dKdt_si r.dKdt_se 1 I_stim
    else (r.dKdt_si, r.dKdt_se)
  assemble r kpair g

/-- The same assembler with the stimulus branch removed entirely (the injector is never
called): the reference behaviour of a run with the stimulus disabled. -/
def dkdtNoStim (lib : EDPRlib) (alpha : ℚ) (t : ℚ) (k : Vec26) : Vec26 :=
  let my_cell := mkCell alpha k
  let r := lib.cell_dkdt my_cell
  let g := lib.cell_dmdt my_cell
  assemble r (r.dKdt_si, r.dKdt_se) g

/-- The same assembler with the injection applied unconditionally: the behaviour of the
stimulated branch. -/
def dkdtStim (lib : EDPRlib) (alpha I_stim : ℚ) (t : ℚ) (k : Vec26) : Vec26 :=
  let my_cell := mkCell alpha k
  let r := lib.cell_dkdt my_cell
  let g := lib.cell_dmdt my_cell
  let kpair : ℚ × ℚ :=
    somatic_injection_current (lib.V_si my_cell) (lib.V_se my_cell) lib.F
      r.dKdt_si r.dKdt_se 1 I_stim
  assemble r kpair g

/-- The initial state vector `k0` of lines 91-92, in the source's order. -/
def k0vec : Vec26 := fun i =>
  match i.val with
  | 0 => Na_si0
  | 1 => Na_se0
  | 2 => Na_di0
  | 3 => Na_de0
  | 4 => K_si0
  | 5 => K_se0
  | 6 => K_di0
  | 7 => K_de0
  | 8 => Cl_si0
  | 9 => Cl_se0
  | 10 => Cl_di0
  | 11 => Cl_de0
  | 12 => Ca_si0
  | 13 => Ca_se0
  | 14 => Ca_di0
  | 15 => Ca_de0
  | 16 => X_si0
  | 17 => X_se0
  | 18 => X_di0
  | 19 => X_de0
  | 20 => n0
  | 21 => h0
  | 22 => s0
  | 23 => c0
  | 24 => q0
  | 25 => z0
  | _ => 0

/-- The diagnostic cell of line 78, built from the initial values. -/
def initCell (alpha : ℚ) : EDPRmodel :=
  { T := T
    Na_si := Na_si0, Na_se := Na_se0, Na_di := Na_di0, Na_de := Na_de0
    K_si := K_si0, K_se := K_se0, K_di := K_di0, K_de := K_de0
    Cl_si := Cl_si0, Cl_se := Cl_se0, Cl_di := Cl_di0, Cl_de := Cl_de0
    Ca_si := Ca_si0, Ca_se := Ca_se0, Ca_di := Ca_di0, Ca_de := Ca_de0
    X_si := X_si0, X_se := X_se0, X_di := X_di0, X_de := X_de0
    alpha := alpha, Ca_si0 := Ca_si0, Ca_di0 := Ca_di0
    n := n0, h := h0, s := s0, c := c0, q := q0, z := z0 }

/-- The wrapper `solve_EDPRmodel(t_dur, alpha, I_stim, stim_start, stim_end)` of
lines 8-98.  The external integrator `solve_ivp` is abstract: `ivp` receives the rate
function, the time span `(0, t_dur)`, the initial vector `k0` and the keyword
`max_step=1e-4`, and produces a solution of abstract type.  The diagnostic values of
lines 80-86 are computed on the initial cell and then, as in the source, never used. -/
def solve_EDPRmodel {Sol : Type} (ivp : (ℚ → Vec26 → Vec26) → ℚ × ℚ → Vec26 → ℚ → Sol)
    (lib : EDPRlib) (t_dur alpha I_stim stim_start stim_end : ℚ) : Sol :=
  let init_cell := initCell alpha
  let _phis := lib.membrane_potentials init_cell
  let _Es := lib.reversal_potentials init_cell
  let _q_si := total_charge lib.F
    [init_cell.Na_si, init_cell.K_si, init_cell.Cl_si, init_cell.Ca_si, init_cell.X_si]
    (lib.V_si init_cell)
  let _q_se := total_charge lib.F
    [init_cell.Na_se, init_cell.K_se, init_cell.Cl_se, init_cell.Ca_se, init_cell.X_se]
    (lib.V_se init_cell)
  let _q_di := total_charge lib.F
    [init_cell.Na_di, init_cell.K_di, init_cell.Cl_di, init_cell.Ca_di, init_cell.X_di]
    (lib.V_di init_cell)
  let _q_de := total_charge lib.F
    [init_cell.Na_de, init_cell.K_de, init_cell.Cl_de, init_cell.Ca_de, init_cell.X_de]
    (lib.V_de init_cell)
  let t_span : ℚ × ℚ := (0, t_dur)
  ivp (dkdt lib alpha I_stim stim_start stim_end) t_span k0vec (1 / 10 ^ 4)

/-- The sequence of rate-function results the integrator observes when it issues the
given list of `(t, k)` calls, in order. -/
def evalSeq (lib : EDPRlib) (alpha I_stim stim_start stim_end : ℚ)
    (calls : List (ℚ × Vec26)) : List Vec26 :=
  calls.map fun p => dkdt lib alpha I_stim stim_start stim_end p.1 p.2

/-- A concrete `CellRates` value with all twenty rates zero, for witnesses. -/
def zeroRates : CellRates :=
  ⟨0, 0, 0, 0, 0, 0, 0, 0, 0, 0, 0, 0, 0, 0, 0, 0, 0, 0, 0, 0⟩

/-- A concrete `GateRates` value with all six rates zero, for witnesses. -/
def zeroGates : GateRates := ⟨0, 0, 0, 0, 0, 0⟩

/-- A concrete instantiation of the external package: all rates zero, unit volumes and
unit Faraday constant, zero diagnostics. -/
def libZero : EDPRlib :=
  { cell_dkdt := fun _ => zeroRates
    cell_dmdt := fun _ => zeroGates
    membrane_potentials := fun _ => (0, 0, 0, 0, 0, 0)
    reversal_potentials := fun _ => (0, 0, 0, 0, 0, 0, 0, 0)
    V_si := fun _ => 1
    V_se := fun _ => 1
    V_di := fun _ => 1
    V_de := fun _ => 1
    F := 1 }

/-- A second concrete instantiation, identical to `libZero` except for the diagnostic
methods and the dendritic volumes, which `dkdt` never reads. -/
def libDiag : EDPRlib :=
  { cell_dkdt := fun _ => zeroRates
    cell_dmdt := fun _ => zeroGates
    membrane_potentials := fun _ => (1, 2, 3, 4, 5, 6)
    reversal_potentials := fun _ => (1, 2, 3, 4, 5, 6, 7, 8)
    V_si := fun _ => 1
    V_se := fun _ => 1
    V_di := fun _ => 7
    V_de := fun _ => 9
    F := 1 }

/-- The all-zero state vector, for witnesses. -/
def zeroVec : Vec26 := fun _ => 0

/-- A packaging integrator for witnesses: it returns its arguments unchanged, so two
solver results are equal exactly when the rate function, span, initial vector and step
bound agree. -/
def ivpPack : (ℚ → Vec26 → Vec26) → ℚ × ℚ → Vec26 → ℚ →
    ((ℚ → Vec26 → Vec26) × (ℚ × ℚ) × Vec26 × ℚ) :=
  fun f sp v m => (f, sp, v, m)

/-- Helper: the assembler is the stimulated branch inside the open window and the
stimulus-free assembler outside it. -/
lemma dkdt_eq_ite (lib : EDPRlib) (alpha I_stim stim_start stim_end t : ℚ) (k : Vec26) :
    dkdt lib alpha I_stim stim_start stim_end t k =
      if stim_start < t ∧ t < stim_end then dkdtStim lib alpha I_stim t k
      else dkdtNoStim lib alpha t k := by
  unfold dkdt dkdtStim dkdtNoStim
  by_cases hc : stim_start < t ∧ t < stim_end
  · simp only [if_pos hc]
  · simp only [if_neg hc]

/-- C1: the rate function `dkdt` applies the stimulus perturbation if and only if the
time lies strictly inside the window, `stim_start < t < stim_end`; in particular at
`t = stim_start` and at `t = stim_end` no injection occurs and the result is that of
the stimulus-free assembler. -/
theorem dkdt_stim_window_strict (lib : EDPRlib)
    (alpha I_stim stim_start stim_end t : ℚ) (k : Vec26) :
    (dkdt lib alpha I_stim stim_start stim_end t k =
      if stim_start < t ∧ t < stim_end then dkdtStim lib alpha I_stim t k
      else dkdtNoStim lib alpha t k) ∧
    dkdt lib alpha I_stim stim_start stim_end stim_start k =
      dkdtNoStim lib alpha stim_start k ∧
    dkdt lib alpha I_stim stim_start stim_end stim_end k =
      dkdtNoStim lib alpha stim_end k := by
  refine ⟨dkdt_eq_ite lib alpha I_stim stim_start stim_end t k, ?_, ?_⟩
  · rw [dkdt_eq_ite, if_neg]
    simp
  · rw [dkdt_eq_ite, if_neg]
    simp

/-- C4: with a degenerate window `stim_start = stim_end`, or with stimulus magnitude
`I_stim = 0`, the rate vector returned by `dkdt` coincides with that of the assembler
with the stimulus disabled entirely, at every time and state. -/
theorem dkdt_zero_stimulus (lib : EDPRlib) (alpha I_stim stim_start stim_end t : ℚ)
    (k : Vec26) :
    dkdt lib alpha I_stim stim_start stim_start t k = dkdtNoStim lib alpha t k ∧
    dkdt lib alpha 0 stim_start stim_end t k = dkdtNoStim lib alpha t k := by
  constructor
  · rw [dkdt_eq_ite, if_neg]
    rintro ⟨h1, h2⟩
    exact absurd (h1.trans h2) (lt_irrefl _)
  · rw [dkdt_eq_ite]
    by_cases hc : stim_start < t ∧ t < stim_end
    · rw [if_pos hc]
      unfold dkdtStim dkdtNoStim somatic_injection_current
      simp
    · rw [if_neg hc]

/-- C7: the two calcium leak-current baselines carried by the snapshot that `dkdt`
builds are the fixed initial values `Ca_si0 = 0.01` and `Ca_di0 = 0.01`, whatever the
time or the state vector — in particular they do not follow the calcium entries
`k 12` and `k 14` of the state. -/
theorem snapshot_calcium_baselines_fixed (alpha : ℚ) (k k' : Vec26) :
    (mkCell alpha k).Ca_si0 = 1 / 100 ∧ (mkCell alpha k).Ca_di0 = 1 / 100 ∧
    (mkCell alpha k).Ca_si0 = (mkCell alpha k').Ca_si0 ∧
    (mkCell alpha k).Ca_di0 = (mkCell alpha k').Ca_di0 := by
  exact ⟨rfl, rfl, rfl, rfl⟩

/-- C5: inside the stimulus window the perturbation touches only the somatic potassium
pair — every component of the returned rate vector other than indices 4 (`K_si`) and
5 (`K_se`) equals the corresponding component of the stimulus-free evaluation at the
same `(t, k)`. -/
theorem dkdt_stim_frame (lib : EDPRlib) (alpha I_stim stim_start stim_end t : ℚ)
    (k : Vec26) (hw : stim_start < t ∧ t < stim_end) :
    ∀ i : Fin 26, i ≠ 4 → i ≠ 5 →
      dkdt lib alpha I_stim stim_start stim_end t k i = dkdtNoStim lib alpha t k i := by
  intro i h4 h5
  rw [dkdt_eq_ite, if_pos hw]
  fin_cases i <;> first | rfl | simp_all

/-- Witness for C5 at concrete inputs: window `(0, 2)`, time `1`, zero state, the
`libZero` instantiation, component `0`. -/
theorem dkdt_stim_frame_witness :
    ((0 : ℚ) < 1 ∧ (1 : ℚ) < 2) ∧
    dkdt libZero 1 1 0 2 1 zeroVec 0 = dkdtNoStim libZero 1 1 zeroVec 0 := by
  refine ⟨⟨by norm_num, by norm_num⟩, ?_⟩
  exact dkdt_stim_frame libZero 1 1 0 2 1 zeroVec ⟨by norm_num, by norm_num⟩ 0
    (by decide) (by decide)

/-- C6: positional alignment of the assembler's interface.  The snapshot built from the
state vector reads its 20 concentrations and 6 gates from the positions
Na(si,se,di,de), K(si,se,di,de), Cl(si,se,di,de), Ca(si,se,di,de), X(si,se,di,de),
n, h, s, c, q, z in that order, and the returned rate vector places the rate of each
species and gate at the position of that species and gate in the input (the impermeant
species' slots 16-19 receive the residual rates `dresdt`); the somatic potassium slots
4 and 5 carry the somatic potassium pair, which `dkdt` may further adjust inside the
stimulus window. -/
theorem dkdt_positional_alignment (lib : EDPRlib) (alpha t : ℚ) (k : Vec26) :
    ((mkCell alpha k).Na_si = k 0 ∧ (mkCell alpha k).Na_se = k 1 ∧
     (mkCell alpha k).Na_di = k 2 ∧ (mkCell alpha k).Na_de = k 3 ∧
     (mkCell alpha k).K_si = k 4 ∧ (mkCell alpha k).K_se = k 5 ∧
     (mkCell alpha k).K_di = k 6 ∧ (mkCell alpha k).K_de = k 7 ∧
     (mkCell alpha k).Cl_si = k 8 ∧ (mkCell alpha k).Cl_se = k 9 ∧
     (mkCell alpha k).Cl_di = k 10 ∧ (mkCell alpha k).Cl_de = k 11 ∧
     (mkCell alpha k).Ca_si = k 12 ∧ (mkCell alpha k).Ca_se = k 13 ∧
     (mkCell alpha k).Ca_di = k 14 ∧ (mkCell alpha k).Ca_de = k 15 ∧
     (mkCell alpha k).X_si = k 16 ∧ (mkCell alpha k).X_se = k 17 ∧
     (mkCell alpha k).X_di = k 18 ∧ (mkCell alpha k).X_de = k 19 ∧
     (mkCell alpha k).n = k 20 ∧ (mkCell alpha k).h = k 21 ∧
     (mkCell alpha k).s = k 22 ∧ (mkCell alpha k).c = k 23 ∧
     (mkCell alpha k).q = k 24 ∧ (mkCell alpha k).z = k 25) ∧
    (dkdtNoStim lib alpha t k 0 = (lib.cell_dkdt (mkCell alpha k)).dNadt_si ∧
     dkdtNoStim lib alpha t k 1 = (lib.cell_dkdt (mkCell alpha k)).dNadt_se ∧
     dkdtNoStim lib alpha t k 2 = (lib.cell_dkdt (mkCell alpha k)).dNadt_di ∧
     dkdtNoStim lib alpha t k 3 = (lib.cell_dkdt (mkCell alpha k)).dNadt_de ∧
     dkdtNoStim lib alpha t k 4 = (lib.cell_dkdt (mkCell alpha k)).dKdt_si ∧
     dkdtNoStim lib alpha t k 5 = (lib.cell_dkdt (mkCell alpha k)).dKdt_se ∧
     dkdtNoStim lib alpha t k 6 = (lib.cell_dkdt (mkCell alpha k)).dKdt_di ∧
     dkdtNoStim lib alpha t k 7 = (lib.cell_dkdt (mkCell alpha k)).dKdt_de ∧
     dkdtNoStim lib alpha t k 8 = (lib.cell_dkdt (mkCell alpha k)).dCldt_si ∧
     dkdtNoStim lib alpha t k 9 = (lib.cell_dkdt (mkCell alpha k)).dCldt_se ∧
     dkdtNoStim lib alpha t k 10 = (lib.cell_dkdt (mkCell alpha k)).dCldt_di ∧
     dkdtNoStim lib alpha t k 11 = (lib.cell_dkdt (mkCell alpha k)).dCldt_de ∧
     dkdtNoStim lib alpha t k 12 = (lib.cell_dkdt (mkCell alpha k)).dCadt_si ∧
     dkdtNoStim lib alpha t k 13 = (lib.cell_dkdt (mkCell alpha k)).dCadt_se ∧
     dkdtNoStim lib alpha t k 14 = (lib.cell_dkdt (mkCell alpha k)).dCadt_di ∧
     dkdtNoStim lib alpha t k 15 = (lib.cell_dkdt (mkCell alpha k)).dCadt_de ∧
     dkdtNoStim lib alpha t k 16 = (lib.cell_dkdt (mkCell alpha k)).dresdt_si ∧
     dkdtNoStim lib alpha t k 17 = (lib.cell_dkdt (mkCell alpha k)).dresdt_se ∧
     dkdtNoStim lib alpha t k 18 = (lib.cell_dkdt (mkCell alpha k)).dresdt_di ∧
     dkdtNoStim lib alpha t k 19 = (lib.cell_dkdt (mkCell alpha k)).dresdt_de ∧
     dkdtNoStim lib alpha t k 20 = (lib.cell_dmdt (mkCell alpha k)).dndt ∧
     dkdtNoStim lib alpha t k 21 = (lib.cell_dmdt (mkCell alpha k)).dhdt ∧
     dkdtNoStim lib alpha t k 22 = (lib.cell_dmdt (mkCell alpha k)).dsdt ∧
     dkdtNoStim lib alpha t k 23 = (lib.cell_dmdt (mkCell alpha k)).dcdt ∧
     dkdtNoStim lib alpha t k 24 = (lib.cell_dmdt (mkCell alpha k)).dqdt ∧
     dkdtNoStim lib alpha t k 25 = (lib.cell_dmdt (mkCell alpha k)).dzdt) := by
  exact ⟨⟨rfl, rfl, rfl, rfl, rfl, rfl, rfl, rfl, rfl, rfl, rfl, rfl, rfl,
          rfl, rfl, rfl, rfl, rfl, rfl, rfl, rfl, rfl, rfl, rfl, rfl, rfl⟩,
         ⟨rfl, rfl, rfl, rfl, rfl, rfl, rfl, rfl, rfl, rfl, rfl, rfl, rfl,
          rfl, rfl, rfl, rfl, rfl, rfl, rfl, rfl, rfl, rfl, rfl, rfl, rfl⟩⟩

/-- Helper: the somatic intracellular potassium slot of the stimulated branch. -/
lemma dkdtStim_apply_4 (lib : EDPRlib) (alpha I_stim t : ℚ) (k : Vec26) :
    dkdtStim lib alpha I_stim t k 4 =
      (lib.cell_dkdt (mkCell alpha k)).dKdt_si +
        1 * I_stim / (lib.V_si (mkCell alpha k) * lib.F) := rfl

/-- Helper: the somatic extracellular potassium slot of the stimulated branch. -/
lemma dkdtStim_apply_5 (lib : EDPRlib) (alpha I_stim t : ℚ) (k : Vec26) :
    dkdtStim lib alpha I_stim t k 5 =
      (lib.cell_dkdt (mkCell alpha k)).dKdt_se -
        1 * I_stim / (lib.V_se (mkCell alpha k) * lib.F) := rfl

/-- Helper: the dendritic extracellular potassium slot of the stimulated branch. -/
lemma dkdtStim_apply_7 (lib : EDPRlib) (alpha I_stim t : ℚ) (k : Vec26) :
    dkdtStim lib alpha I_stim t k 7 = (lib.cell_dkdt (mkCell alpha k)).dKdt_de := rfl

/-- C2 counterexample: the claim says the pair passed to and returned from the injector
is that of the `K_si` and `K_de` entries.  On the code the second slot of that pair is
the somatic extracellular entry `K_se` (index 5), not the dendritic extracellular entry
`K_de` (index 7).  Concretely, with all cell rates zero, unit volumes and Faraday
constant, `I_stim = 1`, window `(0, 2)` and `t = 1`: the returned `K_de` component is
`0`, not the injector's second output on the claimed `(dKdt_si, dKdt_de)` pair (which
is `-1`), and the `K_se` component is the one that received that `-1`. -/
theorem dkdt_injection_targets_cex :
    dkdt libZero 1 1 0 2 1 zeroVec 7 ≠
      (somatic_injection_current 1 1 1 ((libZero.cell_dkdt (mkCell 1 zeroVec)).dKdt_si)
        ((libZero.cell_dkdt (mkCell 1 zeroVec)).dKdt_de) 1 1).2 ∧
    dkdt libZero 1 1 0 2 1 zeroVec 5 = -1 ∧
    dkdt libZero 1 1 0 2 1 zeroVec 7 = 0 := by
  have hw : (0 : ℚ) < 1 ∧ (1 : ℚ) < 2 := by norm_num
  refine ⟨?_, ?_, ?_⟩
  · rw [dkdt_eq_ite, if_pos hw, dkdtStim_apply_7]
    norm_num [libZero, zeroRates, somatic_injection_current]
  · rw [dkdt_eq_ite, if_pos hw, dkdtStim_apply_5]
    norm_num [libZero, zeroRates]
  · rw [dkdt_eq_ite, if_pos hw, dkdtStim_apply_7]
    norm_num [libZero, zeroRates]

/-- C2 amended: when the stimulus is active, the rate pair passed to and returned from
the injector is that of the somatic `K_si` and `K_se` entries (indices 4 and 5), while
the dendritic extracellular rate `dKdt_de` (index 7) is returned unchanged. -/
theorem dkdt_injection_targets (lib : EDPRlib)
    (alpha I_stim stim_start stim_end t : ℚ) (k : Vec26)
    (hw : stim_start < t ∧ t < stim_end) :
    dkdt lib alpha I_stim stim_start stim_end t k 4 =
      (somatic_injection_current (lib.V_si (mkCell alpha k)) (lib.V_se (mkCell alpha k))
        lib.F ((lib.cell_dkdt (mkCell alpha k)).dKdt_si)
        ((lib.cell_dkdt (mkCell alpha k)).dKdt_se) 1 I_stim).1 ∧
    dkdt lib alpha I_stim stim_start stim_end t k 5 =
      (somatic_injection_current (lib.V_si (mkCell alpha k)) (lib.V_se (mkCell alpha k))
        lib.F ((lib.cell_dkdt (mkCell alpha k)).dKdt_si)
        ((lib.cell_dkdt (mkCell alpha k)).dKdt_se) 1 I_stim).2 ∧
    dkdt lib alpha I_stim stim_start stim_end t k 7 =
      (lib.cell_dkdt (mkCell alpha k)).dKdt_de := by
  rw [dkdt_eq_ite, if_pos hw]
  exact ⟨rfl, rfl, rfl⟩

/-- Witness for the amended C2 at concrete inputs: `libZero`, window `(0, 2)`, `t = 1`,
zero state. -/
theorem dkdt_injection_targets_witness :
    ((0 : ℚ) < 1 ∧ (1 : ℚ) < 2) ∧
    dkdt libZero 1 1 0 2 1 zeroVec 7 = (libZero.cell_dkdt (mkCell 1 zeroVec)).dKdt_de :=
  ⟨⟨by norm_num, by norm_num⟩,
   (dkdt_injection_targets libZero 1 1 0 2 1 zeroVec ⟨by norm_num, by norm_num⟩).2.2⟩

/-- C3: the impermeant charges are initialized by the source's algebraic formulas, and
as a consequence the signed-valence concentration sum of each compartment reduces to
the fixed resting residual, so the total compartment charge computed by `total_charge`
at `t = 0` equals the volume-weighted baseline `F·res_i·V` intracellularly and
`F·(−res_e)·V` extracellularly, for every volume `V` and Faraday constant `F`. -/
theorem initial_charge_neutrality :
    (X_si0 = Na_si0 + K_si0 - Cl_si0 + 2 * Ca_si0 - res_i ∧
     X_di0 = Na_di0 + K_di0 - Cl_di0 + 2 * Ca_di0 - res_i ∧
     X_se0 = Na_se0 + K_se0 - Cl_se0 + 2 * Ca_se0 + res_e ∧
     X_de0 = Na_de0 + K_de0 - Cl_de0 + 2 * Ca_de0 + res_e) ∧
    (Na_si0 + K_si0 - Cl_si0 + 2 * Ca_si0 - X_si0 = res_i ∧
     Na_di0 + K_di0 - Cl_di0 + 2 * Ca_di0 - X_di0 = res_i ∧
     Na_se0 + K_se0 - Cl_se0 + 2 * Ca_se0 - X_se0 = -res_e ∧
     Na_de0 + K_de0 - Cl_de0 + 2 * Ca_de0 - X_de0 = -res_e) ∧
    ∀ F V : ℚ,
      total_charge F [Na_si0, K_si0, Cl_si0, Ca_si0, X_si0] V = F * res_i * V ∧
      total_charge F [Na_se0, K_se0, Cl_se0, Ca_se0, X_se0] V = F * -res_e * V ∧
      total_charge F [Na_di0, K_di0, Cl_di0, Ca_di0, X_di0] V = F * res_i * V ∧
      total_charge F [Na_de0, K_de0, Cl_de0, Ca_de0, X_de0] V = F * -res_e * V := by
  refine ⟨⟨rfl, rfl, rfl, rfl⟩,
    ⟨by simp only [X_si0]; ring, by simp only [X_di0]; ring,
     by simp only [X_se0]; ring, by simp only [X_de0]; ring⟩, ?_⟩
  intro F V
  refine ⟨?_, ?_, ?_, ?_⟩ <;>
    · simp only [total_charge, X_si0, X_se0, X_di0, X_de0, List.zipWith,
        List.sum_cons, List.sum_nil]
      ring

/-- C8 counterexample: the claim says non-physical construction inputs such as
`alpha ≤ 0` are rejected with an error before any rate evaluation.  The source performs
no such check: construction and rate evaluation are total, and with `alpha = -1` the
snapshot simply stores `-1` and `dkdt` returns definite rates (here the injected
somatic value `1`), so no parameter-validity error is signalled. -/
theorem construction_rejects_nonphysical_cex :
    (mkCell (-1) zeroVec).alpha = -1 ∧ dkdt libZero (-1) 1 0 2 1 zeroVec 4 = 1 := by
  refine ⟨rfl, ?_⟩
  rw [dkdt_eq_ite, if_pos (by norm_num : (0 : ℚ) < 1 ∧ (1 : ℚ) < 2), dkdtStim_apply_4]
  norm_num [libZero, zeroRates]

/-- C8 amended: the construction path performs no validity check — for every `alpha`,
including non-physical `alpha ≤ 0`, the snapshot stores the value unexamined and the
rate evaluation proceeds exactly as for physical inputs, with no error branch. -/
theorem construction_unvalidated (lib : EDPRlib)
    (alpha I_stim stim_start stim_end t : ℚ) (k : Vec26) (halpha : alpha ≤ 0) :
    (mkCell alpha k).alpha = alpha ∧
    dkdt lib alpha I_stim stim_start stim_end t k =
      (if stim_start < t ∧ t < stim_end then dkdtStim lib alpha I_stim t k
       else dkdtNoStim lib alpha t k) :=
  ⟨rfl, dkdt_eq_ite lib alpha I_stim stim_start stim_end t k⟩

/-- Witness for the amended C8 at the non-physical input `alpha = -1`. -/
theorem construction_unvalidated_witness :
    ((-1 : ℚ) ≤ 0) ∧ (mkCell (-1) zeroVec).alpha = -1 :=
  ⟨by norm_num,
   (construction_unvalidated libZero (-1) 1 0 2 1 zeroVec (by norm_num)).1⟩

/-- C9: the rate function is deterministic and stateless — in any sequence of
evaluations the integrator performs, the result of a call at `(t, k)` is
`dkdt t k`, independently of which calls precede or follow it and of how often it is
repeated.  (The embedding is a pure function of `(t, k)` and the run's fixed
parameters, as is the source closure, which reads only variables that never change
during a run and mutates nothing.) -/
theorem dkdt_stateless (lib : EDPRlib) (alpha I_stim stim_start stim_end : ℚ)
    (pre post : List (ℚ × Vec26)) (t : ℚ) (k : Vec26) :
    evalSeq lib alpha I_stim stim_start stim_end (pre ++ (t, k) :: post) =
      evalSeq lib alpha I_stim stim_start stim_end pre ++
        dkdt lib alpha I_stim stim_start stim_end t k ::
          evalSeq lib alpha I_stim stim_start stim_end post := by
  unfold evalSeq
  simp

/-- C10: the diagnostics computed on the initial cell (membrane potentials, reversal
potentials and the four compartment charges) are discarded: the value returned by
`solve_EDPRmodel` is exactly the integrator applied to `dkdt`, the span `(0, t_dur)`,
the initial vector `k0` and the step bound `1e-4`; and two external packages that agree
on the pieces `dkdt` reads (the two rate methods, the somatic volumes and the Faraday
constant) but differ arbitrarily on the diagnostic methods and dendritic volumes give
equal solver results. -/
theorem solve_diagnostics_discarded {Sol : Type}
    (ivp : (ℚ → Vec26 → Vec26) → ℚ × ℚ → Vec26 → ℚ → Sol) (lib lib' : EDPRlib)
    (h1 : lib.cell_dkdt = lib'.cell_dkdt) (h2 : lib.cell_dmdt = lib'.cell_dmdt)
    (h3 : lib.V_si = lib'.V_si) (h4 : lib.V_se = lib'.V_se) (h5 : lib.F = lib'.F)
    (t_dur alpha I_stim stim_start stim_end : ℚ) :
    solve_EDPRmodel ivp lib t_dur alpha I_stim stim_start stim_end =
      ivp (dkdt lib alpha I_stim stim_start stim_end) (0, t_dur) k0vec (1 / 10 ^ 4) ∧
    solve_EDPRmodel ivp lib t_dur alpha I_stim stim_start stim_end =
      solve_EDPRmodel ivp lib' t_dur alpha I_stim stim_start stim_end := by
  have hd : dkdt lib alpha I_stim stim_start stim_end =
      dkdt lib' alpha I_stim stim_start stim_end := by
    funext t' k'
    unfold dkdt
    rw [h1, h2, h3, h4, h5]
  exact ⟨rfl, by simp only [solve_EDPRmodel]; rw [hd]⟩

/-- Witness for C10: `libZero` and `libDiag` agree on what `dkdt` reads but differ on
every diagnostic method and on the dendritic volumes, and the packaged solver results
at the example's arguments (`t_dur = 30`, `alpha = 2`, stimulus window `(10, 20)`)
coincide. -/
theorem solve_diagnostics_discarded_witness :
    libZero.cell_dkdt = libDiag.cell_dkdt ∧ libZero.cell_dmdt = libDiag.cell_dmdt ∧
    libZero.V_si = libDiag.V_si ∧ libZero.V_se = libDiag.V_se ∧
    libZero.F = libDiag.F ∧
    solve_EDPRmodel ivpPack libZero 30 2 1 10 20 =
      solve_EDPRmodel ivpPack libDiag 30 2 1 10 20 :=
  ⟨rfl, rfl, rfl, rfl, rfl,
   (solve_diagnostics_discarded ivpPack libZero libDiag rfl rfl rfl rfl rfl
     30 2 1 10 20).2⟩

end EDPR
